import Mathlib

/-!
Shallow embedding of the TFTP packet codec in pkg/tftp/protocol.go.

Go strings and byte slices are modelled as lists of naturals, each entry
standing for one byte (meaningful values are below 256).  The byte sink of a
Marshal call is an in-memory buffer, as in the tests, so writes to it never
fail; a Marshal returns the error, if any, together with the bytes present on
the sink when it returns.  An Unmarshal takes the receiver packet and the
input bytes and returns the error, the resulting receiver value, and the
bytes of the input not consumed by the reads it performed.
-/

namespace TFTP

/-- Byte sequence of a Go string or byte slice; each entry is one byte. -/
abbrev Bytes := List Nat

/-- Wire field being processed when an underlying read or write fails.
Go wraps such failures in an IOError carrying a short description of the
field; only the field identity matters to the codec contract. -/
inductive Field where
  | opcode
  | filename
  | mode
  | blockNumber
  | errorCode
  | errorMessage
deriving DecidableEq, Repr

/-- Error values of the codec, mirroring the package-level error variables
ErrInputNotNETASCII, ErrInvalidBlockNumber, ErrTooMuchData,
ErrMismatchingOpcode, and the IOError wrapper. -/
inductive TFTPError where
  | inputNotNETASCII
  | invalidBlockNumber
  | tooMuchData
  | mismatchingOpcode
  | ioError (field : Field)
deriving DecidableEq, Repr

/-- Mirrors isNETASCII: scan the bytes, returning false at the first byte that
is 0 or above unicode.MaxASCII, which is 127. -/
def isNETASCII : Bytes → Bool
  | [] => true
  | c :: rest => if c = 0 ∨ c > 127 then false else isNETASCII rest

/-- Big-endian byte pair that binary.Write produces for a 16-bit value. -/
def be16 (n : Nat) : Bytes := [n / 256 % 256, n % 256]

/-- Mirrors binary.Read of a uint16: consume exactly two bytes and decode them
big-endian, or fail when the input is exhausted first.  Returns the decoded
value, if any, and the unconsumed remainder. -/
def readUInt16 : Bytes → Option Nat × Bytes
  | b1 :: b2 :: rest => (some (b1 * 256 + b2), rest)
  | _ => (none, [])

/-- Mirrors expectOpcode: read a big-endian 16-bit opcode and fail with the
mismatching-opcode error when it differs from the expected one.  A read
failure is surfaced as an underlying I/O error on the opcode field. -/
def expectOpcode (input : Bytes) (expected : Nat) : Option TFTPError × Bytes :=
  match readUInt16 input with
  | (none, rest) => (some (.ioError .opcode), rest)
  | (some op, rest) =>
      if op = expected then (none, rest) else (some .mismatchingOpcode, rest)

/-- Mirrors bufio ReadString with delimiter 0: the bytes up to and including
the first 0, or a failure when the input ends before a 0 is found.  Returns
the unconsumed remainder as well. -/
def readDelim0 : Bytes → Option Bytes × Bytes
  | [] => (none, [])
  | b :: rest =>
      if b = 0 then (some [b], rest)
      else
        match readDelim0 rest with
        | (s, r) => (s.map (fun t => b :: t), r)

/-- RRQPacket with Filename and Mode, both Go strings. -/
structure RRQPacket where
  Filename : Bytes
  Mode : Bytes
deriving DecidableEq, Repr

/-- WRQPacket with Filename and Mode, both Go strings. -/
structure WRQPacket where
  Filename : Bytes
  Mode : Bytes
deriving DecidableEq, Repr

/-- DATAPacket with a uint16 BlockNumber and a byte-slice payload. -/
structure DATAPacket where
  BlockNumber : Nat
  Data : Bytes
deriving DecidableEq, Repr

/-- ACKPacket with a uint16 BlockNumber. -/
structure ACKPacket where
  BlockNumber : Nat
deriving DecidableEq, Repr

/-- ERRORPacket with a uint16 ErrorCode and a Go string ErrorMsg. -/
structure ERRORPacket where
  ErrorCode : Nat
  ErrorMsg : Bytes
deriving DecidableEq, Repr

/-- Mirrors RRQPacket.Marshal: write the opcode 1, check both strings for
NETASCII validity, then write filename, NUL, mode, NUL. -/
def RRQPacket.Marshal (p : RRQPacket) : Option TFTPError × Bytes :=
  let out := be16 1
  if !isNETASCII p.Filename || !isNETASCII p.Mode then (some .inputNotNETASCII, out)
  else (none, out ++ p.Filename ++ [0] ++ p.Mode ++ [0])

/-- Mirrors WRQPacket.Marshal: identical to the RRQ layout with opcode 2. -/
def WRQPacket.Marshal (p : WRQPacket) : Option TFTPError × Bytes :=
  let out := be16 2
  if !isNETASCII p.Filename || !isNETASCII p.Mode then (some .inputNotNETASCII, out)
  else (none, out ++ p.Filename ++ [0] ++ p.Mode ++ [0])

/-- Mirrors DATAPacket.Marshal: write opcode 3, reject block number 0, write
the block number, reject payloads above 512 bytes, write the payload. -/
def DATAPacket.Marshal (p : DATAPacket) : Option TFTPError × Bytes :=
  let out := be16 3
  if p.BlockNumber = 0 then (some .invalidBlockNumber, out)
  else
    let out2 := out ++ be16 p.BlockNumber
    if p.Data.length > 512 then (some .tooMuchData, out2)
    else (none, out2 ++ p.Data)

/-- Mirrors ACKPacket.Marshal: opcode 4 then the block number, no checks. -/
def ACKPacket.Marshal (p : ACKPacket) : Option TFTPError × Bytes :=
  (none, be16 4 ++ be16 p.BlockNumber)

/-- Mirrors ERRORPacket.Marshal: opcode 5, error code, NETASCII check of the
message, then the message and a terminating NUL. -/
def ERRORPacket.Marshal (p : ERRORPacket) : Option TFTPError × Bytes :=
  let out := be16 5 ++ be16 p.ErrorCode
  if !isNETASCII p.ErrorMsg then (some .inputNotNETASCII, out)
  else (none, out ++ p.ErrorMsg ++ [0])

/-- Mirrors RRQPacket.Unmarshal: expect opcode 1, read the filename up to the
NUL, strip the NUL, validate it, do the same for the mode, and assign the
receiver fields only after both validations succeed. -/
def RRQPacket.Unmarshal (p : RRQPacket) (input : Bytes) :
    Option TFTPError × RRQPacket × Bytes :=
  match expectOpcode input 1 with
  | (some e, rest) => (some e, p, rest)
  | (none, r1) =>
    match readDelim0 r1 with
    | (none, r2) => (some (.ioError .filename), p, r2)
    | (some fn0, r2) =>
      let filename := fn0.dropLast
      if !isNETASCII filename then (some .inputNotNETASCII, p, r2)
      else
        match readDelim0 r2 with
        | (none, r3) => (some (.ioError .mode), p, r3)
        | (some md0, r3) =>
          let mode := md0.dropLast
          if !isNETASCII mode then (some .inputNotNETASCII, p, r3)
          else (none, ⟨filename, mode⟩, r3)

/-- Mirrors WRQPacket.Unmarshal: identical to the RRQ parse with opcode 2. -/
def WRQPacket.Unmarshal (p : WRQPacket) (input : Bytes) :
    Option TFTPError × WRQPacket × Bytes :=
  match expectOpcode input 2 with
  | (some e, rest) => (some e, p, rest)
  | (none, r1) =>
    match readDelim0 r1 with
    | (none, r2) => (some (.ioError .filename), p, r2)
    | (some fn0, r2) =>
      let filename := fn0.dropLast
      if !isNETASCII filename then (some .inputNotNETASCII, p, r2)
      else
        match readDelim0 r2 with
        | (none, r3) => (some (.ioError .mode), p, r3)
        | (some md0, r3) =>
          let mode := md0.dropLast
          if !isNETASCII mode then (some .inputNotNETASCII, p, r3)
          else (none, ⟨filename, mode⟩, r3)

/-- Mirrors DATAPacket.Unmarshal: expect opcode 3, read the block number,
reject 0, then take all remaining input as the payload with no length check. -/
def DATAPacket.Unmarshal (p : DATAPacket) (input : Bytes) :
    Option TFTPError × DATAPacket × Bytes :=
  match expectOpcode input 3 with
  | (some e, rest) => (some e, p, rest)
  | (none, r1) =>
    match readUInt16 r1 with
    | (none, r2) => (some (.ioError .blockNumber), p, r2)
    | (some bn, r2) =>
      if bn = 0 then (some .invalidBlockNumber, p, r2)
      else (none, ⟨bn, r2⟩, [])

/-- Mirrors ACKPacket.Unmarshal: expect opcode 4 then read the block number
with no further checks; binary.Read leaves the destination untouched on a
failed read. -/
def ACKPacket.Unmarshal (p : ACKPacket) (input : Bytes) :
    Option TFTPError × ACKPacket × Bytes :=
  match expectOpcode input 4 with
  | (some e, rest) => (some e, p, rest)
  | (none, r1) =>
    match readUInt16 r1 with
    | (none, r2) => (some (.ioError .blockNumber), p, r2)
    | (some bn, r2) => (none, ⟨bn⟩, r2)

/-- Mirrors ERRORPacket.Unmarshal: expect opcode 5, read the error code, read
the message up to and including the NUL, and validate NETASCII on the message
with the NUL terminator still included: unlike the request parsers, the Go
code never strips the terminator before the check or the assignment. -/
def ERRORPacket.Unmarshal (p : ERRORPacket) (input : Bytes) :
    Option TFTPError × ERRORPacket × Bytes :=
  match expectOpcode input 5 with
  | (some e, rest) => (some e, p, rest)
  | (none, r1) =>
    match readUInt16 r1 with
    | (none, r2) => (some (.ioError .errorCode), p, r2)
    | (some code, r2) =>
      match readDelim0 r2 with
      | (none, r3) => (some (.ioError .errorMessage), p, r3)
      | (some msg, r3) =>
        if !isNETASCII msg then (some .inputNotNETASCII, p, r3)
        else (none, ⟨code, msg⟩, r3)

/-- Bytes of the Go string for the path hello dot txt used by the tests. -/
def helloTxtBytes : Bytes := [47, 104, 101, 108, 108, 111, 46, 116, 120, 116]

/-- Bytes of the Go string octet. -/
def octetBytes : Bytes := [111, 99, 116, 101, 116]

/-- Bytes of the Go string Bogus. -/
def bogusBytes : Bytes := [66, 111, 103, 117, 115]

/-- C4: the NETASCII validity predicate returns true exactly when every byte
of the string lies in the range 1 to 127 inclusive; in particular the empty
string is valid and any string containing a 0 byte or a byte of 128 or more
is invalid. -/
theorem c4_isNETASCII_iff (s : Bytes) :
    isNETASCII s = true ↔ ∀ c ∈ s, 1 ≤ c ∧ c ≤ 127 := by
  induction s with
  | nil => simp [isNETASCII]
  | cons b rest ih =>
    simp only [isNETASCII, List.mem_cons]
    constructor
    · intro h
      by_cases hb : b = 0 ∨ b > 127
      · simp [hb] at h
      · simp only [hb, if_false] at h
        intro c hc
        rcases hc with rfl | hc
        · omega
        · exact (ih.mp h) c hc
    · intro h
      have hb : ¬ (b = 0 ∨ b > 127) := by
        have := h b (Or.inl rfl)
        omega
      simp only [hb, if_false]
      exact ih.mpr fun c hc => h c (Or.inr hc)

/-- C1: the encode-decode round trip fails on the ERROR variant.  The packet
with error code 0 and the empty message satisfies every precondition and
encodes to the five bytes 00 05 00 00 00, yet decoding those bytes fails with
the NETASCII error, because the decoder validates the message with its NUL
terminator still attached. -/
theorem c1_error_roundtrip_fails :
    ERRORPacket.Marshal ⟨0, []⟩ = (none, [0, 5, 0, 0, 0]) ∧
    ERRORPacket.Unmarshal ⟨0, []⟩ [0, 5, 0, 0, 0] =
      (some .inputNotNETASCII, ⟨0, []⟩, []) := by
  decide

/-- C2: on the wire bytes 00 05 00 01 41 00, an ERROR packet with code 1 and
the one-byte NETASCII-valid message 41, decode fails with the NETASCII error
instead of succeeding with the stripped message, because the decoder never
strips the NUL terminator before validating. -/
theorem c2_error_decode_rejects_valid_message :
    ERRORPacket.Unmarshal ⟨0, []⟩ [0, 5, 0, 1, 65, 0] =
      (some .inputNotNETASCII, ⟨0, []⟩, []) := by
  decide

/-- C3 counterexample: encoding the DATA packet with block number 0 and the
payload Bogus fails with the invalid-block-number error but leaves the two
opcode bytes on the sink, so the output is not empty as the claim states. -/
theorem c3_counterexample :
    DATAPacket.Marshal ⟨0, bogusBytes⟩ = (some .invalidBlockNumber, [0, 3]) ∧
    ([0, 3] : Bytes) ≠ [] := by
  decide

/-- C3 amended: for every payload, encoding a DATA packet whose block number
is 0 fails with the invalid-block-number error, with exactly the two opcode
bytes 00 03 on the sink and no block-number or payload bytes. -/
theorem c3_data_block_zero (d : Bytes) :
    DATAPacket.Marshal ⟨0, d⟩ = (some .invalidBlockNumber, [0, 3]) ∧
    ([0, 3] : Bytes).length = 2 := by
  simp [DATAPacket.Marshal, be16]

/-- C5: for every decode operation, an input whose first two bytes decode
big-endian to a value other than the expected opcode fails with the
mismatching-opcode error, and exactly the two opcode bytes are consumed. -/
theorem c5_opcode_mismatch (b1 b2 : Nat) (rest : Bytes)
    (rq : RRQPacket) (wq : WRQPacket) (dp : DATAPacket) (ap : ACKPacket)
    (ep : ERRORPacket) (hb1 : b1 < 256) (hb2 : b2 < 256) :
    (b1 * 256 + b2 ≠ 1 →
      rq.Unmarshal (b1 :: b2 :: rest) = (some .mismatchingOpcode, rq, rest)) ∧
    (b1 * 256 + b2 ≠ 2 →
      wq.Unmarshal (b1 :: b2 :: rest) = (some .mismatchingOpcode, wq, rest)) ∧
    (b1 * 256 + b2 ≠ 3 →
      dp.Unmarshal (b1 :: b2 :: rest) = (some .mismatchingOpcode, dp, rest)) ∧
    (b1 * 256 + b2 ≠ 4 →
      ap.Unmarshal (b1 :: b2 :: rest) = (some .mismatchingOpcode, ap, rest)) ∧
    (b1 * 256 + b2 ≠ 5 →
      ep.Unmarshal (b1 :: b2 :: rest) = (some .mismatchingOpcode, ep, rest)) := by
  refine ⟨fun h => ?_, fun h => ?_, fun h => ?_, fun h => ?_, fun h => ?_⟩ <;>
    simp [RRQPacket.Unmarshal, WRQPacket.Unmarshal, DATAPacket.Unmarshal,
      ACKPacket.Unmarshal, ERRORPacket.Unmarshal, expectOpcode, readUInt16, h]

/-- C5 witness: the word 00 09 mismatches each of the five expected opcodes,
and each decode fails with the mismatching-opcode error, leaving the byte
after the opcode unconsumed. -/
theorem c5_opcode_mismatch_witness :
    RRQPacket.Unmarshal ⟨[], []⟩ [0, 9, 7] = (some .mismatchingOpcode, ⟨[], []⟩, [7]) ∧
    WRQPacket.Unmarshal ⟨[], []⟩ [0, 9, 7] = (some .mismatchingOpcode, ⟨[], []⟩, [7]) ∧
    DATAPacket.Unmarshal ⟨0, []⟩ [0, 9, 7] = (some .mismatchingOpcode, ⟨0, []⟩, [7]) ∧
    ACKPacket.Unmarshal ⟨0⟩ [0, 9, 7] = (some .mismatchingOpcode, ⟨0⟩, [7]) ∧
    ERRORPacket.Unmarshal ⟨0, []⟩ [0, 9, 7] = (some .mismatchingOpcode, ⟨0, []⟩, [7]) := by
  have h := c5_opcode_mismatch 0 9 [7] ⟨[], []⟩ ⟨[], []⟩ ⟨0, []⟩ ⟨0⟩ ⟨0, []⟩
    (by decide) (by decide)
  exact ⟨h.1 (by decide), h.2.1 (by decide), h.2.2.1 (by decide),
    h.2.2.2.1 (by decide), h.2.2.2.2 (by decide)⟩

/-- Wire bytes of the RRQ encoding of the hello request used by the tests. -/
def helloRRQBytes : Bytes :=
  [0, 1, 47, 104, 101, 108, 108, 111, 46, 116, 120, 116, 0, 111, 99, 116, 101, 116, 0]

/-- C6 counterexample: the RRQ encoding of the hello request is the listed
byte sequence, but that sequence has 19 bytes, not 18 as the claim states. -/
theorem c6_counterexample :
    RRQPacket.Marshal ⟨helloTxtBytes, octetBytes⟩ = (none, helloRRQBytes) ∧
    helloRRQBytes.length ≠ 18 := by
  decide

/-- C6 amended: encoding the hello request as an RRQ succeeds and produces
exactly the 19-byte sequence 00 01 2F 68 65 6C 6C 6F 2E 74 78 74 00 6F 63 74
65 74 00. -/
theorem c6_rrq_hello_encoding :
    RRQPacket.Marshal ⟨helloTxtBytes, octetBytes⟩ = (none, helloRRQBytes) ∧
    helloRRQBytes.length = 19 := by
  decide

/-- C7: after a matching opcode, DATA decode reads a two-byte big-endian
block number, fails with the invalid-block-number error exactly when that
value is 0, and otherwise succeeds with the payload set verbatim to all
remaining input bytes; no 512-byte ceiling is re-checked on decode, so the
remaining bytes may number more than 512. -/
theorem c7_data_unmarshal (p : DATAPacket) (b1 b2 : Nat) (rest : Bytes)
    (hb1 : b1 < 256) (hb2 : b2 < 256) :
    (b1 * 256 + b2 = 0 →
      p.Unmarshal (0 :: 3 :: b1 :: b2 :: rest) = (some .invalidBlockNumber, p, rest)) ∧
    (b1 * 256 + b2 ≠ 0 →
      p.Unmarshal (0 :: 3 :: b1 :: b2 :: rest) = (none, ⟨b1 * 256 + b2, rest⟩, [])) := by
  constructor <;> intro h <;>
    simp [DATAPacket.Unmarshal, expectOpcode, readUInt16, h]

set_option maxRecDepth 4000 in
/-- C7 witness: block number 1 with a 513-byte payload decodes successfully,
and block number 0 fails with the invalid-block-number error. -/
theorem c7_data_unmarshal_witness :
    DATAPacket.Unmarshal ⟨0, []⟩ (0 :: 3 :: 0 :: 1 :: List.replicate 513 65) =
      (none, ⟨1, List.replicate 513 65⟩, []) ∧
    DATAPacket.Unmarshal ⟨0, []⟩ [0, 3, 0, 0, 7] =
      (some .invalidBlockNumber, ⟨0, []⟩, [7]) := by
  constructor
  · have h := (c7_data_unmarshal ⟨0, []⟩ 0 1 (List.replicate 513 65)
      (by decide) (by decide)).2 (by decide)
    simpa using h
  · exact (c7_data_unmarshal ⟨0, []⟩ 0 0 [7] (by decide) (by decide)).1 (by decide)

/-- Helper: reading to the delimiter fails when no byte of the input is 0. -/
theorem readDelim0_no_zero (s : Bytes) (h : ∀ c ∈ s, c ≠ 0) :
    readDelim0 s = (none, []) := by
  induction s with
  | nil => rfl
  | cons b rest ih =>
    have hb : b ≠ 0 := h b (List.mem_cons_self b rest)
    have ih2 := ih fun c hc => h c (List.mem_cons_of_mem b hc)
    simp [readDelim0, hb, ih2]

/-- Helper: reading to the delimiter over a zero-free prefix followed by a 0
yields that prefix with the delimiter attached and leaves the tail unread. -/
theorem readDelim0_split (s rest : Bytes) (h : ∀ c ∈ s, c ≠ 0) :
    readDelim0 (s ++ 0 :: rest) = (some (s ++ [0]), rest) := by
  induction s with
  | nil => simp [readDelim0]
  | cons b tl ih =>
    have hb : b ≠ 0 := h b (List.mem_cons_self b tl)
    have ih2 := ih fun c hc => h c (List.mem_cons_of_mem b hc)
    simp [readDelim0, hb, ih2]

set_option maxRecDepth 4000 in
/-- C8: a request-packet input truncated before the NUL terminator of the
filename, or before the NUL terminator of the mode, makes RRQ and WRQ decode
fail with an underlying I/O error on the field being read; a truncated field
is never returned as a successful parse. -/
theorem c8_truncated_request (rq : RRQPacket) (wq : WRQPacket) (fn rest : Bytes) :
    ((∀ c ∈ rest, c ≠ 0) →
      rq.Unmarshal (0 :: 1 :: rest) = (some (.ioError .filename), rq, []) ∧
      wq.Unmarshal (0 :: 2 :: rest) = (some (.ioError .filename), wq, [])) ∧
    ((∀ c ∈ fn, c ≠ 0) → isNETASCII fn = true → (∀ c ∈ rest, c ≠ 0) →
      rq.Unmarshal (0 :: 1 :: (fn ++ 0 :: rest)) = (some (.ioError .mode), rq, []) ∧
      wq.Unmarshal (0 :: 2 :: (fn ++ 0 :: rest)) = (some (.ioError .mode), wq, [])) := by
  constructor
  · intro h
    constructor <;>
      simp [RRQPacket.Unmarshal, WRQPacket.Unmarshal, expectOpcode, readUInt16,
        readDelim0_no_zero rest h]
  · intro hfn hascii h
    constructor <;>
      simp [RRQPacket.Unmarshal, WRQPacket.Unmarshal, expectOpcode, readUInt16,
        readDelim0_split fn rest hfn, List.dropLast_concat, hascii,
        readDelim0_no_zero rest h]

/-- C8 witness: an RRQ cut off inside the filename and a WRQ cut off inside
the mode both fail with the underlying I/O error on the unterminated field. -/
theorem c8_truncated_request_witness :
    RRQPacket.Unmarshal ⟨[], []⟩ [0, 1, 65] =
      (some (.ioError .filename), ⟨[], []⟩, []) ∧
    WRQPacket.Unmarshal ⟨[], []⟩ [0, 2, 97, 0, 65] =
      (some (.ioError .mode), ⟨[], []⟩, []) := by
  have h := c8_truncated_request ⟨[], []⟩ ⟨[], []⟩ [97] [65]
  exact ⟨(h.1 (by decide)).1, (h.2 (by decide) (by decide) (by decide)).2⟩

/-- C9: every decode is atomic with respect to the receiver: whenever it
returns an error, the resulting receiver value equals the one passed in,
fields being assigned only after every read and validation has succeeded. -/
theorem c9_unmarshal_atomic (rq : RRQPacket) (wq : WRQPacket) (dp : DATAPacket)
    (ap : ACKPacket) (ep : ERRORPacket) (input : Bytes) :
    ((rq.Unmarshal input).1 = none ∨ (rq.Unmarshal input).2.1 = rq) ∧
    ((wq.Unmarshal input).1 = none ∨ (wq.Unmarshal input).2.1 = wq) ∧
    ((dp.Unmarshal input).1 = none ∨ (dp.Unmarshal input).2.1 = dp) ∧
    ((ap.Unmarshal input).1 = none ∨ (ap.Unmarshal input).2.1 = ap) ∧
    ((ep.Unmarshal input).1 = none ∨ (ep.Unmarshal input).2.1 = ep) := by
  refine ⟨?_, ?_, ?_, ?_, ?_⟩
  · unfold RRQPacket.Unmarshal
    repeat' first
      | exact Or.inl rfl
      | exact Or.inr rfl
      | split
      | dsimp only
  · unfold WRQPacket.Unmarshal
    repeat' first
      | exact Or.inl rfl
      | exact Or.inr rfl
      | split
      | dsimp only
  · unfold DATAPacket.Unmarshal
    repeat' first
      | exact Or.inl rfl
      | exact Or.inr rfl
      | split
  · unfold ACKPacket.Unmarshal
    repeat' first
      | exact Or.inl rfl
      | exact Or.inr rfl
      | split
  · unfold ERRORPacket.Unmarshal
    repeat' first
      | exact Or.inl rfl
      | exact Or.inr rfl
      | split

/-- C10: every encode writes the two opcode bytes before validating, so a
validation failure leaves exactly the already-written prefix on the sink: two
bytes when RRQ or WRQ fails the NETASCII check or DATA fails the block-number
check, four bytes when DATA fails the length check or ERROR fails the
NETASCII check. -/
theorem c10_opcode_written_first (rq : RRQPacket) (wq : WRQPacket)
    (dp : DATAPacket) (ep : ERRORPacket) :
    ((isNETASCII rq.Filename = false ∨ isNETASCII rq.Mode = false) →
      rq.Marshal = (some .inputNotNETASCII, [0, 1]) ∧ ([0, 1] : Bytes).length = 2) ∧
    ((isNETASCII wq.Filename = false ∨ isNETASCII wq.Mode = false) →
      wq.Marshal = (some .inputNotNETASCII, [0, 2]) ∧ ([0, 2] : Bytes).length = 2) ∧
    (dp.BlockNumber = 0 →
      dp.Marshal = (some .invalidBlockNumber, [0, 3]) ∧ ([0, 3] : Bytes).length = 2) ∧
    (dp.BlockNumber ≠ 0 → dp.Data.length > 512 →
      dp.Marshal = (some .tooMuchData, [0, 3] ++ be16 dp.BlockNumber) ∧
      ([0, 3] ++ be16 dp.BlockNumber).length = 4) ∧
    (isNETASCII ep.ErrorMsg = false →
      ep.Marshal = (some .inputNotNETASCII, [0, 5] ++ be16 ep.ErrorCode) ∧
      ([0, 5] ++ be16 ep.ErrorCode).length = 4) := by
  refine ⟨fun h => ?_, fun h => ?_, fun h => ?_, fun h h2 => ?_, fun h => ?_⟩
  · rcases h with h | h <;>
      simp [RRQPacket.Marshal, be16, h]
  · rcases h with h | h <;>
      simp [WRQPacket.Marshal, be16, h]
  · simp [DATAPacket.Marshal, be16, h]
  · simp [DATAPacket.Marshal, be16, h, h2]
  · simp [ERRORPacket.Marshal, be16, h]

set_option maxRecDepth 8000 in
/-- C10 witness: concrete validation failures for each encode leave exactly
the stated prefix on the sink. -/
theorem c10_opcode_written_first_witness :
    RRQPacket.Marshal ⟨[0], []⟩ = (some .inputNotNETASCII, [0, 1]) ∧
    WRQPacket.Marshal ⟨[0], []⟩ = (some .inputNotNETASCII, [0, 2]) ∧
    DATAPacket.Marshal ⟨0, []⟩ = (some .invalidBlockNumber, [0, 3]) ∧
    DATAPacket.Marshal ⟨1, List.replicate 513 65⟩ = (some .tooMuchData, [0, 3, 0, 1]) ∧
    ERRORPacket.Marshal ⟨7, [0]⟩ = (some .inputNotNETASCII, [0, 5, 0, 7]) := by
  have h1 := c10_opcode_written_first ⟨[0], []⟩ ⟨[0], []⟩ ⟨0, []⟩ ⟨7, [0]⟩
  have h2 := c10_opcode_written_first ⟨[0], []⟩ ⟨[0], []⟩
    ⟨1, List.replicate 513 65⟩ ⟨7, [0]⟩
  refine ⟨(h1.1 (Or.inl (by decide))).1, (h1.2.1 (Or.inl (by decide))).1,
    (h1.2.2.1 rfl).1, ?_, ?_⟩
  · have h3 := (h2.2.2.2.1 (by decide) (by simp)).1
    simpa [be16] using h3
  · have h4 := (h1.2.2.2.2 (by decide)).1
    simpa [be16] using h4

end TFTP
